import Mathlib

/-!
# Verification of the gesture-control backend (`backend/server.js`)

Shallow embedding of the sensor-data pipeline of the gesture-controlled 3D
editor backend: the movement calculator (`calculateMovementData`), the gesture
classifier (`classifyGesture` / `calculateConfidence`), the cursor/mode mapper,
the orchestrator (`processSensorData`) and the `/sensor-data` HTTP endpoint.

JavaScript numbers are modelled as exact rationals (`ℚ`); the only places the
code applies transcendental functions (`Math.sqrt`, `Math.sin`, `Math.cos`) are
modelled at `ℝ` via `Real.sqrt` / `Real.sin` / `Real.cos`.  JavaScript
truthiness of the `||` defaults is modelled exactly (`x || d` yields `d` when
`x` is `undefined` or `0`).  A thrown `TypeError` (a property access on
`undefined`) is modelled as `Except.error ()`.
-/

namespace GestureBackend

/-- A 3-component vector of JS numbers (used both for `{x,y,z}` positions and
for the 3-element `orientation` array `[roll, pitch, yaw]`). -/
structure Vec3 where
  x : ℚ
  y : ℚ
  z : ℚ
deriving DecidableEq, Repr

/-- The `fingers` object: `{index, middle, ring, little}` bend values. -/
structure Fingers where
  index : ℚ
  middle : ℚ
  ring : ℚ
  little : ℚ
deriving DecidableEq, Repr

/-- The `thumb` object: `{bend}`. -/
structure Thumb where
  bend : ℚ
deriving DecidableEq, Repr

/-- The `palm` object: `{pressure}`. -/
structure Palm where
  pressure : ℚ
deriving DecidableEq, Repr

/-- The `switches` object: three buttons. -/
structure Switches where
  selectButton : Bool
  modeButton : Bool
  confirmButton : Bool
deriving DecidableEq, Repr

/-- The `imu` object.  Only `orientation` is read by the code
(`acceleration` is never accessed), so only `orientation` is modelled. -/
structure Imu where
  orientation : Vec3
deriving DecidableEq, Repr

/-- A sensor frame after the endpoint validation: `deviceId`, `imu` and
`fingers` are present; `thumb`, `palm`, `switches` and `position` may be
absent (`Option`). -/
structure SensorFrame where
  deviceId : String
  timestamp : ℚ
  imu : Imu
  fingers : Fingers
  thumb : Option Thumb
  palm : Option Palm
  switches : Option Switches
  position : Option Vec3
deriving DecidableEq, Repr

/-- Models `currentData.position || { x: 0, y: 0, z: 0 }`: an object is always truthy,
so the default applies exactly when `position` is absent. -/
def positionOr (p : Option Vec3) : Vec3 :=
  p.getD ⟨0, 0, 0⟩

/-- Models `data.thumb?.bend || 0.5`: yields `0.5` when `thumb` is absent, and also
when `thumb.bend` is `0` (the number `0` is falsy in JS). -/
def thumbBendOr (t : Option Thumb) : ℚ :=
  match t with
  | none => 0.5
  | some th => if th.bend = 0 then 0.5 else th.bend

/-- Sum of squares of the components, as in
`d.x*d.x + d.y*d.y + d.z*d.z` (exact in `ℚ`). -/
def normSq (v : Vec3) : ℚ :=
  v.x * v.x + v.y * v.y + v.z * v.z

/-- Applies `Math.sqrt` to the sum of squares, at `ℝ`. -/
noncomputable def norm2 (v : Vec3) : ℝ :=
  Real.sqrt ((normSq v : ℚ) : ℝ)

/-- The object returned by `calculateMovementData`.  Note that the returned
object carries `positionMagnitude` but not `orientationMagnitude` (the latter
is only a local variable in the source). -/
structure MovementData where
  orientationDelta : Vec3
  positionDelta : Vec3
  velocity : Vec3
  scaleFactor : ℚ
  orientation : Vec3
  position : Vec3
  movementMagnitude : ℝ
  positionMagnitude : ℝ
  deltaTime : ℚ
  timestamp : ℚ

/-- Models `calculateMovementData(currentData, previousData)` from `server.js`.

* no previous frame → the identity result anchored to the current pose;
* `deltaTime = (current.timestamp - previous.timestamp) / 1000`;
* `velocity = positionDelta / deltaTime` when `deltaTime > 0`, else zero;
* `orientationDelta` is the raw componentwise difference (no wrapping);
* `movementMagnitude = Math.max(positionMagnitude, orientationMagnitude)`;
* `scaleFactor = clamp(currentPinchDistance / prevPinchDistance, 0.5, 2.0)`
  when `prevPinchDistance > 0`, else `1.0`.  (The guard
  `currentData.fingers && previousData.fingers` in the source is always true
  here because `fingers` is a required, validated field.) -/
noncomputable def calculateMovementData (currentData : SensorFrame)
    (previousData : Option SensorFrame) : MovementData :=
  match previousData with
  | none =>
    { orientationDelta := ⟨0, 0, 0⟩
      positionDelta := ⟨0, 0, 0⟩
      velocity := ⟨0, 0, 0⟩
      scaleFactor := 1
      orientation := currentData.imu.orientation
      position := positionOr currentData.position
      movementMagnitude := 0
      positionMagnitude := 0
      deltaTime := 0
      timestamp := currentData.timestamp }
  | some prev =>
    let deltaTime : ℚ := (currentData.timestamp - prev.timestamp) / 1000
    let currentPos := positionOr currentData.position
    let prevPos := positionOr prev.position
    let positionDelta : Vec3 :=
      ⟨currentPos.x - prevPos.x, currentPos.y - prevPos.y, currentPos.z - prevPos.z⟩
    let velocity : Vec3 :=
      if deltaTime > 0 then
        ⟨positionDelta.x / deltaTime, positionDelta.y / deltaTime,
          positionDelta.z / deltaTime⟩
      else ⟨0, 0, 0⟩
    let orientationDelta : Vec3 :=
      ⟨currentData.imu.orientation.x - prev.imu.orientation.x,
        currentData.imu.orientation.y - prev.imu.orientation.y,
        currentData.imu.orientation.z - prev.imu.orientation.z⟩
    let positionMagnitude : ℝ := norm2 positionDelta
    let orientationMagnitude : ℝ := norm2 orientationDelta
    let movementMagnitude : ℝ := max positionMagnitude orientationMagnitude
    let currentPinchDistance : ℚ :=
      |currentData.fingers.index - thumbBendOr currentData.thumb|
    let prevPinchDistance : ℚ :=
      |prev.fingers.index - thumbBendOr prev.thumb|
    let scaleFactor : ℚ :=
      if prevPinchDistance > 0 then
        max 0.5 (min 2.0 (currentPinchDistance / prevPinchDistance))
      else 1
    { orientationDelta := orientationDelta
      positionDelta := positionDelta
      velocity := velocity
      scaleFactor := scaleFactor
      orientation := currentData.imu.orientation
      position := currentPos
      movementMagnitude := movementMagnitude
      positionMagnitude := positionMagnitude
      deltaTime := deltaTime
      timestamp := currentData.timestamp }

/-- Modelled from the spec: the canonical combined definition of the spec,
`movementMagnitude = sqrt(positionMagnitude² + orientationMagnitude²)`
(§4.3), to be compared with the `Math.max` form of the source. -/
noncomputable def specMovementMagnitude (pm om : ℝ) : ℝ :=
  Real.sqrt (pm ^ 2 + om ^ 2)

/-! ## Gesture classification (`classifyGesture`, `calculateConfidence`) -/

/-- The gesture labels produced by `classifyGesture`. -/
inductive Gesture
  | neutral
  | pinch
  | fist
  | open_palm
  | pointing
deriving DecidableEq, Repr

/-- The `GESTURE_THRESHOLDS` constant object. -/
structure GestureThresholds where
  FINGER_CLOSED : ℚ
  FINGER_OPEN : ℚ
  PINCH_THRESHOLD : ℚ
  FIST_THRESHOLD : ℚ
  PALM_PRESSURE : ℚ

/-- Values of `GESTURE_THRESHOLDS` as configured in `server.js`. -/
def GESTURE_THRESHOLDS : GestureThresholds :=
  { FINGER_CLOSED := 0.7
    FINGER_OPEN := 0.3
    PINCH_THRESHOLD := 0.6
    FIST_THRESHOLD := 0.7
    PALM_PRESSURE := 0.5 }

/-- Models `Object.values(fingers)`: the four finger bends in insertion order. -/
def fingerValues (f : Fingers) : List ℚ :=
  [f.index, f.middle, f.ring, f.little]

/-- Models `Object.values(fingers).filter(bend => bend > FINGER_CLOSED).length`.
The thumb is not part of the `fingers` object, so it is not counted. -/
def closedFingers (f : Fingers) : ℕ :=
  ((fingerValues f).filter (fun bend => bend > GESTURE_THRESHOLDS.FINGER_CLOSED)).length

/-- Models Models `Object.values(fingers).filter(bend => bend < FINGER_OPEN).length`. -/
def openFingers (f : Fingers) : ℕ :=
  ((fingerValues f).filter (fun bend => bend < GESTURE_THRESHOLDS.FINGER_OPEN)).length

/-- The `isPinch` condition: index and thumb bends both below
`PINCH_THRESHOLD` and within `0.2` of each other.  No gyroscope or motion
signal is consulted. -/
def isPinch (fingers : Fingers) (thumb : Thumb) : Prop :=
  fingers.index < GESTURE_THRESHOLDS.PINCH_THRESHOLD ∧
  thumb.bend < GESTURE_THRESHOLDS.PINCH_THRESHOLD ∧
  |fingers.index - thumb.bend| < 0.2

instance (f : Fingers) (t : Thumb) : Decidable (isPinch f t) := by
  unfold isPinch; infer_instance

/-- The `isFist` condition: `closedFingers >= 4` (only the four fingers are
counted; the thumb and the gyroscope play no role). -/
def isFist (fingers : Fingers) : Prop :=
  closedFingers fingers ≥ 4

instance (f : Fingers) : Decidable (isFist f) := by
  unfold isFist; infer_instance

/-- The `isOpenPalm` condition: `openFingers >= 4`. -/
def isOpenPalm (fingers : Fingers) : Prop :=
  openFingers fingers ≥ 4

instance (f : Fingers) : Decidable (isOpenPalm f) := by
  unfold isOpenPalm; infer_instance

/-- The `isPointing` condition. -/
def isPointing (fingers : Fingers) : Prop :=
  fingers.index < GESTURE_THRESHOLDS.FINGER_OPEN ∧
  fingers.middle > GESTURE_THRESHOLDS.FINGER_CLOSED ∧
  fingers.ring > GESTURE_THRESHOLDS.FINGER_CLOSED

instance (f : Fingers) : Decidable (isPointing f) := by
  unfold isPointing; infer_instance

/-- Models `calculateConfidence(gesture, sensors)`.  Here `palm` is passed by the source
but never read.  In the `fist` / `open_palm` branches the sum of the four
finger bends is divided by `5`, exactly as in the source.  The result is
clamped to `[0.1, 1]`. -/
def calculateConfidence (gesture : Gesture) (fingers : Fingers) (thumb : Thumb) : ℚ :=
  let confidence : ℚ :=
    match gesture with
    | .pinch => max 0 (1 - |fingers.index - thumb.bend| * 2)
    | .fist =>
      let avgBend := (fingers.index + fingers.middle + fingers.ring + fingers.little) / 5
      min 1 avgBend
    | .open_palm =>
      let avgOpen := 1 - (fingers.index + fingers.middle + fingers.ring + fingers.little) / 5
      min 1 avgOpen
    | .pointing => 1 - fingers.index + fingers.middle * 0.5
    | .neutral => 0.5
  max 0.1 (min 1 confidence)

/-- The result of `classifyGesture`. -/
structure GestureResult where
  gesture : Gesture
  confidence : ℚ
deriving DecidableEq, Repr

/-- Models `classifyGesture({fingers, thumb, palm})`: priority order
pinch → fist → open_palm → pointing → neutral, first match wins.
`palm` is destructured but never used by the decision or the confidence.
`thumb.bend` is dereferenced unconditionally, so this total function is only
reached when `thumb` is present (see `processSensorData`). -/
def classifyGesture (fingers : Fingers) (thumb : Thumb) : GestureResult :=
  let gesture : Gesture :=
    if isPinch fingers thumb then .pinch
    else if isFist fingers then .fist
    else if isOpenPalm fingers then .open_palm
    else if isPointing fingers then .pointing
    else .neutral
  { gesture := gesture
    confidence := calculateConfidence gesture fingers thumb }

/-! ## Cursor / mode mapping -/

/-- The transform modes. -/
inductive TransformMode
  | translate
  | rotate
  | scale
  | cursor
deriving DecidableEq, Repr

/-- Models `gestureToTransformMode(gesture)`: table lookup with the
translate default. -/
def gestureToTransformMode (gesture : Gesture) : TransformMode :=
  match gesture with
  | .open_palm => .translate
  | .fist => .rotate
  | .pinch => .scale
  | .pointing => .cursor
  | .neutral => .translate

/-- Models `normalizeCursorOrientation(imuData)`:
`[sin(yaw)·cos(pitch), sin(pitch), cos(yaw)·cos(pitch)]` where
`orientation = [roll, pitch, yaw]`. -/
noncomputable def normalizeCursorOrientation (imuData : Imu) : ℝ × ℝ × ℝ :=
  let pitch : ℝ := (imuData.orientation.y : ℚ)
  let yaw : ℝ := (imuData.orientation.z : ℚ)
  (Real.sin yaw * Real.cos pitch, Real.sin pitch, Real.cos yaw * Real.cos pitch)

/-! ## Orchestrator (`processSensorData`) and the `/sensor-data` endpoint -/

/-- The object assembled and returned by `processSensorData`.  The `timestamp`
field is `Date.now()`, passed in as the ambient clock value `now`. -/
structure ProcessedData where
  deviceId : String
  timestamp : ℚ
  cursorOrientation : ℝ × ℝ × ℝ
  gesture : Gesture
  gestureConfidence : ℚ
  transformMode : TransformMode
  selectAction : Bool
  modeSwitch : Bool
  confirmAction : Bool
  movementData : MovementData
  rawImu : Vec3
  rawPosition : Option Vec3
  fingerBends : Fingers
  thumbBend : ℚ
  palmPressure : ℚ

/-- The per-device history map `previousFrameData`, modelled as a function
from device ids to the last stored frame. -/
def HistoryMap := String → Option SensorFrame

/-- Models `previousFrameData.set(deviceId, frame)`. -/
def setHistory (hist : HistoryMap) (deviceId : String) (frame : SensorFrame) :
    HistoryMap :=
  fun key => if key = deviceId then some frame else hist key

/-- Models `processSensorData(rawData)` from `server.js`, as a function of the global
`previousFrameData` map.  Returns the updated map together with either the
assembled `ProcessedData` or `Except.error ()` for a thrown `TypeError`.

Order of operations, exactly as in the source:
1. look up the previous frame for `deviceId`;
2. `calculateMovementData` (total — it guards its optional accesses);
3. **store the current frame in `previousFrameData`** (this happens before
   classification, so it survives any later throw);
4. `classifyGesture` — dereferences `thumb.bend`, throwing when `thumb` is
   absent;
5. the `actions` object — dereferences `switches.*`, throwing when
   `switches` is absent;
6. the `rawSensorData` summary — dereferences `palm.pressure`, throwing when
   `palm` is absent (`palm.pressure || 0` is the identity on `ℚ` values
   since `0 || 0` is `0`). -/
noncomputable def processSensorData (hist : HistoryMap) (rawData : SensorFrame)
    (now : ℚ) : HistoryMap × Except Unit ProcessedData :=
  let previousData := hist rawData.deviceId
  let movementData := calculateMovementData rawData previousData
  let hist2 := setHistory hist rawData.deviceId rawData
  match rawData.thumb with
  | none => (hist2, .error ())
  | some thumb =>
    let gestureResult := classifyGesture rawData.fingers thumb
    let cursorOrientation := normalizeCursorOrientation rawData.imu
    let transformMode := gestureToTransformMode gestureResult.gesture
    match rawData.switches with
    | none => (hist2, .error ())
    | some switches =>
      match rawData.palm with
      | none => (hist2, .error ())
      | some palm =>
        (hist2, .ok
          { deviceId := rawData.deviceId
            timestamp := now
            cursorOrientation := cursorOrientation
            gesture := gestureResult.gesture
            gestureConfidence := gestureResult.confidence
            transformMode := transformMode
            selectAction := switches.selectButton
            modeSwitch := switches.modeButton
            confirmAction := switches.confirmButton
            movementData := movementData
            rawImu := rawData.imu.orientation
            rawPosition := rawData.position
            fingerBends := rawData.fingers
            thumbBend := thumb.bend
            palmPressure := palm.pressure })

/-- The global `currentGestureState` object. -/
structure GestureState where
  leftHand : Option ProcessedData
  rightHand : Option ProcessedData
  selectedObject : Option String
  transformMode : TransformMode

/-- The mutable server state touched by the `/sensor-data` endpoint:
`previousFrameData` and `currentGestureState`. -/
structure ServerState where
  previousFrameData : HistoryMap
  currentGestureState : GestureState

/-- A raw inbound JSON body: every field may be absent. -/
structure RawFrame where
  deviceId : Option String
  timestamp : ℚ
  imu : Option Imu
  fingers : Option Fingers
  thumb : Option Thumb
  palm : Option Palm
  switches : Option Switches
  position : Option Vec3

/-- The validation performed by the endpoint,
`!rawSensorData.deviceId || !rawSensorData.imu || !rawSensorData.fingers`:
the frame passes iff `deviceId` is present and non-empty (the empty string is
falsy) and `imu` and `fingers` are present. -/
def toSensorFrame (raw : RawFrame) : Option SensorFrame :=
  match raw.deviceId, raw.imu, raw.fingers with
  | some deviceId, some imu, some fingers =>
    if deviceId = "" then none
    else some
      { deviceId := deviceId
        timestamp := raw.timestamp
        imu := imu
        fingers := fingers
        thumb := raw.thumb
        palm := raw.palm
        switches := raw.switches
        position := raw.position }
  | _, _, _ => none

/-- The substring probed by the endpoint when picking the hand slot. -/
def leftToken : String := "left"

/-- Models `rawSensorData.deviceId.includes(leftToken)`: substring
containment. -/
def containsLeft (s : String) : Bool :=
  decide (List.IsInfix leftToken.toList s.toList)

/-- The HTTP response of `POST /sensor-data`: 400 with the missing-fields
message, 500 with the generic internal-error body, or the 200 success body (which
carries `gesture`, `transformMode`, `confidence`, `movementMagnitude`). -/
inductive SensorResponse
  | badRequest
  | internalError
  | success (gesture : Gesture) (transformMode : TransformMode)
      (confidence : ℚ) (movementMagnitude : ℝ)

/-- The `POST /sensor-data` handler.  Returns the new server state, the HTTP
response, and the list of `gesture-update` events broadcast to subscribers.

* validation failure → 400, no state change, no broadcast;
* a throw inside `processSensorData` is caught → 500, no broadcast, no
  `currentGestureState` change — but the `previousFrameData` write made
  before the throw persists (the map is a shared global);
* success → the hand slot picked by the deviceId substring test for the left token is replaced,
  a gesture-update event broadcasts, 200 returned. -/
noncomputable def handleSensorData (st : ServerState) (raw : RawFrame)
    (now : ℚ) : ServerState × SensorResponse × List ProcessedData :=
  match toSensorFrame raw with
  | none => (st, .badRequest, [])
  | some frame =>
    let pr := processSensorData st.previousFrameData frame now
    match pr.2 with
    | .error _ =>
      ({ st with previousFrameData := pr.1 }, .internalError, [])
    | .ok processedData =>
      let gs := st.currentGestureState
      let gs2 :=
        if containsLeft frame.deviceId then { gs with leftHand := some processedData }
        else { gs with rightHand := some processedData }
      ({ previousFrameData := pr.1, currentGestureState := gs2 },
        .success processedData.gesture processedData.transformMode
          processedData.gestureConfidence
          processedData.movementData.movementMagnitude,
        [processedData])

/-! ## Concrete frames used by the counterexamples and witnesses -/

/-- A device id not containing the left token. -/
def devR : String := "rightHand1"

/-- A baseline frame for device `devR` at timestamp 0, at the origin. -/
def baseFrame : SensorFrame :=
  { deviceId := devR
    timestamp := 0
    imu := ⟨⟨0, 0, 0⟩⟩
    fingers := ⟨0.2, 0.2, 0.2, 0.2⟩
    thumb := some ⟨0.4⟩
    palm := some ⟨0.1⟩
    switches := some ⟨false, false, false⟩
    position := some ⟨0, 0, 0⟩ }

/-- One second after `baseFrame`: the position moved by `(3,0,0)` and the
roll angle moved by `4`, so the position magnitude is `3` and the
orientation magnitude is `4`. -/
def movedFrame : SensorFrame :=
  { baseFrame with
    timestamp := 1000
    imu := ⟨⟨4, 0, 0⟩⟩
    position := some ⟨3, 0, 0⟩ }

/-- A frame whose yaw is `-3` radians. -/
def yawNegFrame : SensorFrame :=
  { baseFrame with imu := ⟨⟨0, 0, -3⟩⟩ }

/-- One second later the yaw reads `3` radians: the true rotation is
`-2π + 6 ≈ -0.28 rad`, but the raw difference is `6`. -/
def yawPosFrame : SensorFrame :=
  { baseFrame with timestamp := 1000, imu := ⟨⟨0, 0, 3⟩⟩ }

/-- A frame stamped at 2000 ms. -/
def lateFrame : SensorFrame :=
  { baseFrame with timestamp := 2000 }

/-- A frame stamped 1000 ms earlier than `lateFrame` (so pairing it after
`lateFrame` gives `deltaTime = -1`), with the position moved by `(3,0,0)`. -/
def outOfOrderFrame : SensorFrame :=
  { baseFrame with timestamp := 1000, position := some ⟨3, 0, 0⟩ }

/-! ## Helper lemmas about `calculateMovementData` (shared across claims) -/

/-- Unfolding lemma: the returned position delta is the raw componentwise
difference of the (defaulted) positions. -/
theorem calc_positionDelta (cur prev : SensorFrame) :
    (calculateMovementData cur (some prev)).positionDelta =
      ⟨(positionOr cur.position).x - (positionOr prev.position).x,
        (positionOr cur.position).y - (positionOr prev.position).y,
        (positionOr cur.position).z - (positionOr prev.position).z⟩ := by
  simp [calculateMovementData]

/-- Unfolding lemma: the returned orientation delta is the raw componentwise
difference of the orientation angles. -/
theorem calc_orientationDelta (cur prev : SensorFrame) :
    (calculateMovementData cur (some prev)).orientationDelta =
      ⟨cur.imu.orientation.x - prev.imu.orientation.x,
        cur.imu.orientation.y - prev.imu.orientation.y,
        cur.imu.orientation.z - prev.imu.orientation.z⟩ := by
  simp [calculateMovementData]

/-- Unfolding lemma: the returned movement magnitude is the maximum of the
returned position magnitude and the norm of the returned orientation
delta. -/
theorem calc_movementMagnitude (cur prev : SensorFrame) :
    (calculateMovementData cur (some prev)).movementMagnitude =
      max (calculateMovementData cur (some prev)).positionMagnitude
        (norm2 (calculateMovementData cur (some prev)).orientationDelta) := by
  simp [calculateMovementData]

/-- Unfolding lemma: the velocity is zeroed when `deltaTime ≤ 0`. -/
theorem calc_velocity_nonpos (cur prev : SensorFrame)
    (h : (calculateMovementData cur (some prev)).deltaTime ≤ 0) :
    (calculateMovementData cur (some prev)).velocity = ⟨0, 0, 0⟩ := by
  simp only [calculateMovementData] at h ⊢
  rw [if_neg (not_lt.mpr h)]

/-! ## Claims about the movement calculator -/

/-- C1 (amended): for every pair of consecutive frames of the same device,
`movementMagnitude` equals the **maximum** of the position magnitude and the
orientation magnitude (the Euclidean norms of the two deltas), not their
root-sum-square combination. -/
theorem c1_movementMagnitude_is_max (cur prev : SensorFrame) :
    (calculateMovementData cur (some prev)).movementMagnitude =
      max (calculateMovementData cur (some prev)).positionMagnitude
        (norm2 (calculateMovementData cur (some prev)).orientationDelta) :=
  calc_movementMagnitude cur prev

/-- C1 (counterexample): with a position delta of norm 3 and an orientation
delta of norm 4, the code returns `max 3 4 = 4`, while the combined
root-sum-square definition of the spec would give `sqrt (9 + 16) = 5`. -/
theorem c1_counterexample :
    (calculateMovementData movedFrame (some baseFrame)).movementMagnitude ≠
      specMovementMagnitude
        (calculateMovementData movedFrame (some baseFrame)).positionMagnitude
        (norm2 (calculateMovementData movedFrame (some baseFrame)).orientationDelta) := by
  have hpm : (calculateMovementData movedFrame (some baseFrame)).positionMagnitude = 3 := by
    norm_num [calculateMovementData, movedFrame, baseFrame, norm2, normSq, positionOr]
    rw [show ((9 : ℝ) = 3 ^ 2) by norm_num, Real.sqrt_sq (by norm_num)]
  have hod : (calculateMovementData movedFrame (some baseFrame)).orientationDelta
      = ⟨4, 0, 0⟩ := by
    norm_num [calculateMovementData, movedFrame, baseFrame]
  have hom : norm2 (⟨4, 0, 0⟩ : Vec3) = 4 := by
    norm_num [norm2, normSq]
    rw [show ((16 : ℝ) = 4 ^ 2) by norm_num, Real.sqrt_sq (by norm_num)]
  have hmm : (calculateMovementData movedFrame (some baseFrame)).movementMagnitude = 4 := by
    rw [calc_movementMagnitude, hpm, hod, hom]
    norm_num
  rw [hmm, hpm, hod, hom, specMovementMagnitude]
  rw [show ((3 : ℝ) ^ 2 + 4 ^ 2 = 5 ^ 2) by norm_num, Real.sqrt_sq (by norm_num)]
  norm_num

/-- C3 (amended): each component of `orientationDelta` is the **raw** angle
difference `current.orientation[i] - previous.orientation[i]`; no ±2π
wrapping is applied, so components are not confined to `[-π, π]`. -/
theorem c3_orientationDelta_raw (cur prev : SensorFrame) :
    (calculateMovementData cur (some prev)).orientationDelta =
      ⟨cur.imu.orientation.x - prev.imu.orientation.x,
        cur.imu.orientation.y - prev.imu.orientation.y,
        cur.imu.orientation.z - prev.imu.orientation.z⟩ :=
  calc_orientationDelta cur prev

/-- C3 (counterexample): pairing a yaw of `-3 rad` with a yaw of `3 rad`
produces the raw difference `6`, which lies outside `[-π, π]` — the claimed
wrap-around correction does not exist in the code. -/
theorem c3_counterexample :
    ¬(-Real.pi ≤
        (((calculateMovementData yawPosFrame (some yawNegFrame)).orientationDelta.z : ℚ) : ℝ) ∧
      (((calculateMovementData yawPosFrame (some yawNegFrame)).orientationDelta.z : ℚ) : ℝ) ≤
        Real.pi) := by
  have hz : (calculateMovementData yawPosFrame (some yawNegFrame)).orientationDelta.z = 6 := by
    norm_num [calculateMovementData, yawPosFrame, yawNegFrame, baseFrame]
  rw [hz]
  rintro ⟨-, h⟩
  have hpi := Real.pi_lt_d2
  norm_num at h
  linarith

/-- C4 (amended): the movement calculator applies no staleness or
non-positivity guard to `deltaTime`: whenever a previous frame exists, the
position delta is computed from the pairing regardless of `deltaTime` (in
particular it need not be zero when `deltaTime ≤ 0`); the only effect of a
non-positive `deltaTime` is that the velocity is zeroed. -/
theorem c4_no_staleness_guard (cur prev : SensorFrame) :
    (calculateMovementData cur (some prev)).positionDelta =
      ⟨(positionOr cur.position).x - (positionOr prev.position).x,
        (positionOr cur.position).y - (positionOr prev.position).y,
        (positionOr cur.position).z - (positionOr prev.position).z⟩ ∧
    ((calculateMovementData cur (some prev)).deltaTime ≤ 0 →
      (calculateMovementData cur (some prev)).velocity = ⟨0, 0, 0⟩) :=
  ⟨calc_positionDelta cur prev, calc_velocity_nonpos cur prev⟩

/-- C4 (witness for the amended claim): pairing a frame stamped 1000 ms with
a stored frame stamped 2000 ms gives `deltaTime = -1 ≤ 0`, yet the returned
position delta is `(3,0,0)` rather than the zero/identity result; the
velocity (alone) is zeroed. -/
theorem c4_no_staleness_guard_witness :
    (calculateMovementData outOfOrderFrame (some lateFrame)).deltaTime = -1 ∧
    (calculateMovementData outOfOrderFrame (some lateFrame)).positionDelta = ⟨3, 0, 0⟩ ∧
    (calculateMovementData outOfOrderFrame (some lateFrame)).velocity = ⟨0, 0, 0⟩ := by
  have hdt : (calculateMovementData outOfOrderFrame (some lateFrame)).deltaTime = -1 := by
    norm_num [calculateMovementData, outOfOrderFrame, lateFrame, baseFrame]
  refine ⟨hdt, ?_, ?_⟩
  · rw [(c4_no_staleness_guard outOfOrderFrame lateFrame).1]
    norm_num [outOfOrderFrame, lateFrame, baseFrame, positionOr]
  · exact (c4_no_staleness_guard outOfOrderFrame lateFrame).2 (by rw [hdt]; norm_num)

/-- C4 (counterexample): the claim as stated — that any pairing with
`deltaTime ≤ 0` yields the identity/zero result — is false: at
`deltaTime = -1` the calculator still returns the nonzero position delta
`(3,0,0)` computed from the stale pairing. -/
theorem c4_counterexample :
    (calculateMovementData outOfOrderFrame (some lateFrame)).deltaTime ≤ 0 ∧
    (calculateMovementData outOfOrderFrame (some lateFrame)).positionDelta ≠ ⟨0, 0, 0⟩ := by
  constructor
  · rw [(by norm_num [calculateMovementData, outOfOrderFrame, lateFrame, baseFrame] :
      (calculateMovementData outOfOrderFrame (some lateFrame)).deltaTime = -1)]
    norm_num
  · rw [calc_positionDelta outOfOrderFrame lateFrame]
    norm_num [outOfOrderFrame, lateFrame, baseFrame, positionOr]

/-- C8: the first frame accepted for a device id — no previous frame in the
history store — yields the identity movement result: zero deltas, zero
velocity, `movementMagnitude = 0`, `scaleFactor = 1.0`, anchored to the
current pose (the orientation of the current frame, its position defaulted
to the origin when absent). -/
theorem c8_first_frame_identity (hist : HistoryMap) (cur : SensorFrame)
    (h : hist cur.deviceId = none) :
    (calculateMovementData cur (hist cur.deviceId)).movementMagnitude = 0 ∧
    (calculateMovementData cur (hist cur.deviceId)).scaleFactor = 1 ∧
    (calculateMovementData cur (hist cur.deviceId)).positionDelta = ⟨0, 0, 0⟩ ∧
    (calculateMovementData cur (hist cur.deviceId)).orientationDelta = ⟨0, 0, 0⟩ ∧
    (calculateMovementData cur (hist cur.deviceId)).velocity = ⟨0, 0, 0⟩ ∧
    (calculateMovementData cur (hist cur.deviceId)).positionMagnitude = 0 ∧
    (calculateMovementData cur (hist cur.deviceId)).deltaTime = 0 ∧
    (calculateMovementData cur (hist cur.deviceId)).orientation = cur.imu.orientation ∧
    (calculateMovementData cur (hist cur.deviceId)).position = positionOr cur.position := by
  rw [h]
  simp [calculateMovementData]

/-- C8 (witness): the identity result on a concrete first frame against the
empty history store. -/
theorem c8_first_frame_identity_witness :
    (calculateMovementData movedFrame ((fun _ => none : HistoryMap) movedFrame.deviceId)).movementMagnitude = 0 ∧
    (calculateMovementData movedFrame ((fun _ => none : HistoryMap) movedFrame.deviceId)).scaleFactor = 1 ∧
    (calculateMovementData movedFrame ((fun _ => none : HistoryMap) movedFrame.deviceId)).positionDelta = ⟨0, 0, 0⟩ ∧
    (calculateMovementData movedFrame ((fun _ => none : HistoryMap) movedFrame.deviceId)).orientationDelta = ⟨0, 0, 0⟩ ∧
    (calculateMovementData movedFrame ((fun _ => none : HistoryMap) movedFrame.deviceId)).velocity = ⟨0, 0, 0⟩ ∧
    (calculateMovementData movedFrame ((fun _ => none : HistoryMap) movedFrame.deviceId)).positionMagnitude = 0 ∧
    (calculateMovementData movedFrame ((fun _ => none : HistoryMap) movedFrame.deviceId)).deltaTime = 0 ∧
    (calculateMovementData movedFrame ((fun _ => none : HistoryMap) movedFrame.deviceId)).orientation = movedFrame.imu.orientation ∧
    (calculateMovementData movedFrame ((fun _ => none : HistoryMap) movedFrame.deviceId)).position = positionOr movedFrame.position :=
  c8_first_frame_identity (fun _ => none) movedFrame rfl

/-- C10: the movement calculator divides only behind guards — the velocity is
`{0,0,0}` whenever `deltaTime ≤ 0` and is the componentwise quotient only
when `deltaTime > 0`; the scale factor is `1.0` whenever the previous pinch
distance is not strictly positive and otherwise is the quotient clamped to
`[0.5, 2.0]`; in all cases `scaleFactor ∈ [0.5, 2.0]`. -/
theorem c10_division_guards (cur prev : SensorFrame) :
    ((calculateMovementData cur (some prev)).deltaTime ≤ 0 →
      (calculateMovementData cur (some prev)).velocity = ⟨0, 0, 0⟩) ∧
    (0 < (calculateMovementData cur (some prev)).deltaTime →
      (calculateMovementData cur (some prev)).velocity =
        ⟨(calculateMovementData cur (some prev)).positionDelta.x /
            (calculateMovementData cur (some prev)).deltaTime,
          (calculateMovementData cur (some prev)).positionDelta.y /
            (calculateMovementData cur (some prev)).deltaTime,
          (calculateMovementData cur (some prev)).positionDelta.z /
            (calculateMovementData cur (some prev)).deltaTime⟩) ∧
    (¬ 0 < |prev.fingers.index - thumbBendOr prev.thumb| →
      (calculateMovementData cur (some prev)).scaleFactor = 1) ∧
    (0 < |prev.fingers.index - thumbBendOr prev.thumb| →
      (calculateMovementData cur (some prev)).scaleFactor =
        max 0.5 (min 2.0
          (|cur.fingers.index - thumbBendOr cur.thumb| /
            |prev.fingers.index - thumbBendOr prev.thumb|))) ∧
    0.5 ≤ (calculateMovementData cur (some prev)).scaleFactor ∧
    (calculateMovementData cur (some prev)).scaleFactor ≤ 2 := by
  refine ⟨?_, ?_, ?_, ?_, ?_, ?_⟩
  · intro h
    simp only [calculateMovementData] at h ⊢
    rw [if_neg (not_lt.mpr h)]
  · intro h
    simp only [calculateMovementData] at h ⊢
    rw [if_pos h]
  · intro h
    simp only [calculateMovementData]
    rw [if_neg h]
  · intro h
    simp only [calculateMovementData]
    rw [if_pos h]
  · simp only [calculateMovementData]
    split
    · exact le_max_left _ _
    · norm_num
  · simp only [calculateMovementData]
    split
    · exact max_le (by norm_num) (le_trans (min_le_left _ _) (by norm_num))
    · norm_num

/-- C10 (witness): on the concrete out-of-order pairing (`deltaTime = -1`)
the velocity is zeroed, and on the concrete 1-second pairing the velocity is
the quotient `(3,0,0)`; both scale factors are `1` (equal pinch distances)
and lie in `[0.5, 2]`. -/
theorem c10_division_guards_witness :
    (calculateMovementData outOfOrderFrame (some lateFrame)).velocity = ⟨0, 0, 0⟩ ∧
    (calculateMovementData movedFrame (some baseFrame)).velocity = ⟨3, 0, 0⟩ ∧
    0.5 ≤ (calculateMovementData movedFrame (some baseFrame)).scaleFactor ∧
    (calculateMovementData movedFrame (some baseFrame)).scaleFactor ≤ 2 := by
  refine ⟨(c10_division_guards outOfOrderFrame lateFrame).1 ?_, ?_,
    (c10_division_guards movedFrame baseFrame).2.2.2.2.1,
    (c10_division_guards movedFrame baseFrame).2.2.2.2.2⟩
  · norm_num [calculateMovementData, outOfOrderFrame, lateFrame, baseFrame]
  · have hdt : (calculateMovementData movedFrame (some baseFrame)).deltaTime = 1 := by
      norm_num [calculateMovementData, movedFrame, baseFrame]
    have hpd : (calculateMovementData movedFrame (some baseFrame)).positionDelta = ⟨3, 0, 0⟩ := by
      rw [calc_positionDelta movedFrame baseFrame]
      norm_num [movedFrame, baseFrame, positionOr]
    rw [(c10_division_guards movedFrame baseFrame).2.1 (by rw [hdt]; norm_num), hdt, hpd]
    norm_num

/-! ## Claims about the gesture classifier -/

/-- C2 (amended): for every frame whose finger bends (thumb included) all lie
in `[0, 0.1]` (approximately 0.05), the classifier returns `gesture = pinch`
with `confidence ≥ 0.8` — not `open_palm`.  The pinch rule consults no
gyroscope-stability signal at all: it fires on bend proximity alone, and
since pinch has the highest priority it shadows the open-palm rule on such
frames. -/
theorem c2_pinch_shadows_open_palm (i m r l t : ℚ)
    (hi0 : 0 ≤ i) (hi1 : i ≤ 0.1) (hm0 : 0 ≤ m) (hm1 : m ≤ 0.1)
    (hr0 : 0 ≤ r) (hr1 : r ≤ 0.1) (hl0 : 0 ≤ l) (hl1 : l ≤ 0.1)
    (ht0 : 0 ≤ t) (ht1 : t ≤ 0.1) :
    (classifyGesture ⟨i, m, r, l⟩ ⟨t⟩).gesture = Gesture.pinch ∧
    0.8 ≤ (classifyGesture ⟨i, m, r, l⟩ ⟨t⟩).confidence := by
  have habs : |i - t| ≤ 0.1 := abs_le.mpr ⟨by linarith, by linarith⟩
  have hpinch : isPinch ⟨i, m, r, l⟩ ⟨t⟩ := by
    refine ⟨by simp [GESTURE_THRESHOLDS]; linarith,
      by simp [GESTURE_THRESHOLDS]; linarith, ?_⟩
    simp only
    linarith [habs]
  have hg : (classifyGesture ⟨i, m, r, l⟩ ⟨t⟩).gesture = Gesture.pinch := by
    simp [classifyGesture, hpinch]
  refine ⟨hg, ?_⟩
  have habs0 : 0 ≤ |i - t| := abs_nonneg _
  simp only [classifyGesture, if_pos hpinch, calculateConfidence]
  have h1 : (0.8 : ℚ) ≤ 1 - |i - t| * 2 := by linarith
  have h2 : max 0 (1 - |i - t| * 2) = 1 - |i - t| * 2 :=
    max_eq_right (by linarith)
  have h3 : min 1 (1 - |i - t| * 2) = 1 - |i - t| * 2 :=
    min_eq_right (by linarith)
  rw [h2, h3]
  exact le_trans h1 (le_max_right _ _)

/-- C2 (witness): at all bends exactly `0.05` the classifier returns pinch
with confidence `1 ≥ 0.8`. -/
theorem c2_pinch_shadows_open_palm_witness :
    (classifyGesture ⟨0.05, 0.05, 0.05, 0.05⟩ ⟨0.05⟩).gesture = Gesture.pinch ∧
    (0.8 : ℚ) ≤ (classifyGesture ⟨0.05, 0.05, 0.05, 0.05⟩ ⟨0.05⟩).confidence :=
  c2_pinch_shadows_open_palm 0.05 0.05 0.05 0.05 0.05
    (by norm_num) (by norm_num) (by norm_num) (by norm_num) (by norm_num)
    (by norm_num) (by norm_num) (by norm_num) (by norm_num) (by norm_num)

/-- C2 (counterexample): on the frame with every bend equal to `0.05` and the
thumb at `0.05` the classifier returns `pinch`, not `open_palm` — the claim
that such frames yield `open_palm` (because pinch would require gyroscope
stability and genuine proximity) is false: no gyroscope condition exists. -/
theorem c2_counterexample :
    (classifyGesture ⟨0.05, 0.05, 0.05, 0.05⟩ ⟨0.05⟩).gesture = Gesture.pinch ∧
    (classifyGesture ⟨0.05, 0.05, 0.05, 0.05⟩ ⟨0.05⟩).gesture ≠ Gesture.open_palm := by
  have hg : (classifyGesture ⟨0.05, 0.05, 0.05, 0.05⟩ ⟨0.05⟩).gesture = Gesture.pinch := by
    norm_num [classifyGesture, isPinch, GESTURE_THRESHOLDS]
  exact ⟨hg, by rw [hg]; intro h; exact Gesture.noConfusion h⟩

/-- C7 (amended): the fist rule counts only the four `fingers` values — the
thumb is not a digit of the count — so it fires (absent a pinch match, which
is impossible here since the index bend exceeds the 0.6 pinch threshold)
exactly when all four fingers exceed the closed threshold `0.7`. -/
theorem c7_fist_counts_four_fingers (f : Fingers) (t : Thumb)
    (hi : 0.7 < f.index) (hm : 0.7 < f.middle)
    (hr : 0.7 < f.ring) (hl : 0.7 < f.little) :
    (classifyGesture f t).gesture = Gesture.fist := by
  have hnp : ¬ isPinch f t := by
    rintro ⟨h1, -, -⟩
    simp [GESTURE_THRESHOLDS] at h1
    linarith
  have hfist : isFist f := by
    have h4 : closedFingers f = 4 := by
      simp [closedFingers, fingerValues, List.filter, GESTURE_THRESHOLDS,
        hi, hm, hr, hl]
    simp [isFist, h4]
  simp [classifyGesture, hnp, hfist]

/-- C7 (witness): all four fingers at `0.95` (thumb also `0.95`) classify as
fist. -/
theorem c7_fist_counts_four_fingers_witness :
    (classifyGesture ⟨0.95, 0.95, 0.95, 0.95⟩ ⟨0.95⟩).gesture = Gesture.fist :=
  c7_fist_counts_four_fingers ⟨0.95, 0.95, 0.95, 0.95⟩ ⟨0.95⟩
    (by norm_num) (by norm_num) (by norm_num) (by norm_num)

/-- C7 (counterexample): a frame with thumb, middle, ring and little closed
(`0.95`) but index open (`0.1`) has only 3 of the 4 counted fingers above
the threshold, so the fist rule does not fire; the frame classifies as
`pointing`, not `fist` — the thumb does not participate in the count. -/
theorem c7_counterexample :
    (classifyGesture ⟨0.1, 0.95, 0.95, 0.95⟩ ⟨0.95⟩).gesture = Gesture.pointing ∧
    (classifyGesture ⟨0.1, 0.95, 0.95, 0.95⟩ ⟨0.95⟩).gesture ≠ Gesture.fist := by
  have hg : (classifyGesture ⟨0.1, 0.95, 0.95, 0.95⟩ ⟨0.95⟩).gesture = Gesture.pointing := by
    norm_num [classifyGesture, isPinch, isFist, isOpenPalm, isPointing,
      closedFingers, openFingers, fingerValues, GESTURE_THRESHOLDS,
      List.filter_cons, List.filter_nil]
  exact ⟨hg, by rw [hg]; intro h; exact Gesture.noConfusion h⟩

/-! ## Helper lemmas about the orchestrator (shared across claims) -/

/-- When `thumb`, `switches` or `palm` is absent, `processSensorData` throws
— but only after having overwritten the history entry with the incoming
frame. -/
theorem processSensorData_error_cases (hist : HistoryMap) (frame : SensorFrame)
    (now : ℚ) (h : frame.thumb = none ∨ frame.switches = none ∨ frame.palm = none) :
    processSensorData hist frame now =
      (setHistory hist frame.deviceId frame, Except.error ()) := by
  rcases h with h | h | h
  · simp [processSensorData, h]
  · cases ht : frame.thumb <;> simp [processSensorData, h, ht]
  · cases ht : frame.thumb <;> cases hsw : frame.switches <;>
      simp [processSensorData, h, ht, hsw]

/-- When `thumb`, `switches` and `palm` are all present, `processSensorData`
succeeds, stores the incoming frame, and assembles the full event. -/
theorem processSensorData_ok_parts (hist : HistoryMap) (frame : SensorFrame)
    (now : ℚ) (th : Thumb) (sw : Switches) (p : Palm)
    (hth : frame.thumb = some th) (hsw : frame.switches = some sw)
    (hp : frame.palm = some p) :
    processSensorData hist frame now =
      (setHistory hist frame.deviceId frame, Except.ok
        { deviceId := frame.deviceId
          timestamp := now
          cursorOrientation := normalizeCursorOrientation frame.imu
          gesture := (classifyGesture frame.fingers th).gesture
          gestureConfidence := (classifyGesture frame.fingers th).confidence
          transformMode :=
            gestureToTransformMode (classifyGesture frame.fingers th).gesture
          selectAction := sw.selectButton
          modeSwitch := sw.modeButton
          confirmAction := sw.confirmButton
          movementData := calculateMovementData frame (hist frame.deviceId)
          rawImu := frame.imu.orientation
          rawPosition := frame.position
          fingerBends := frame.fingers
          thumbBend := th.bend
          palmPressure := p.pressure }) := by
  simp [processSensorData, hth, hsw, hp]

/-- When the position of the current frame is absent, the returned movement
pose position is the `{0,0,0}` default, whether or not a previous frame
exists. -/
theorem calc_position_default (cur : SensorFrame) (prevOpt : Option SensorFrame)
    (h : cur.position = none) :
    (calculateMovementData cur prevOpt).position = ⟨0, 0, 0⟩ := by
  cases prevOpt <;> simp [calculateMovementData, h, positionOr]

/-! ## Concrete server states and raw frames -/

/-- An initial gesture state: no hands, no selection, translate mode. -/
def gs0 : GestureState := ⟨none, none, none, .translate⟩

/-- A server state with an empty history. -/
def st0 : ServerState := ⟨fun _ => none, gs0⟩

/-- A server state whose history holds `baseFrame` for device `devR`. -/
def st1 : ServerState := ⟨setHistory (fun _ => none) devR baseFrame, gs0⟩

/-- A raw frame for `devR` carrying all required fields but no `thumb`. -/
def rawNoThumb : RawFrame :=
  { deviceId := some devR
    timestamp := 1000
    imu := some ⟨⟨0, 0, 0⟩⟩
    fingers := some ⟨0.2, 0.2, 0.2, 0.2⟩
    thumb := none
    palm := some ⟨0.1⟩
    switches := some ⟨false, false, false⟩
    position := some ⟨3, 0, 0⟩ }

/-- The validated sensor frame corresponding to `rawNoThumb`. -/
def frameNoThumb : SensorFrame :=
  { deviceId := devR
    timestamp := 1000
    imu := ⟨⟨0, 0, 0⟩⟩
    fingers := ⟨0.2, 0.2, 0.2, 0.2⟩
    thumb := none
    palm := some ⟨0.1⟩
    switches := some ⟨false, false, false⟩
    position := some ⟨3, 0, 0⟩ }

/-- A raw frame for `devR` carrying all required fields but no `palm`. -/
def rawNoPalm : RawFrame :=
  { deviceId := some devR
    timestamp := 0
    imu := some ⟨⟨0, 0, 0⟩⟩
    fingers := some ⟨0.2, 0.2, 0.2, 0.2⟩
    thumb := some ⟨0.4⟩
    palm := none
    switches := some ⟨false, false, false⟩
    position := some ⟨0, 0, 0⟩ }

/-- A complete raw frame for `devR` (all optional fields present). -/
def rawFull : RawFrame :=
  { deviceId := some devR
    timestamp := 0
    imu := some ⟨⟨0, 0, 0⟩⟩
    fingers := some ⟨0.2, 0.2, 0.2, 0.2⟩
    thumb := some ⟨0.4⟩
    palm := some ⟨0.1⟩
    switches := some ⟨false, false, false⟩
    position := some ⟨0, 0, 0⟩ }

/-! ## Claims about the orchestrator and the endpoint -/

/-- C5 (amended): when a failure is thrown while processing a validated frame
(a missing `thumb`, `switches` or `palm`), the caller receives the generic
internal-error response and no event is broadcast — but the per-device
history entry is **not** left at its prior value: it has already been
overwritten with the incoming frame, because the history write precedes the
classification step. -/
theorem c5_internal_error_partial_write (st : ServerState) (raw : RawFrame)
    (frame : SensorFrame) (now : ℚ) (hv : toSensorFrame raw = some frame)
    (hfail : frame.thumb = none ∨ frame.switches = none ∨ frame.palm = none) :
    (handleSensorData st raw now).2.1 = SensorResponse.internalError ∧
    (handleSensorData st raw now).2.2 = [] ∧
    (handleSensorData st raw now).1.previousFrameData frame.deviceId = some frame ∧
    (handleSensorData st raw now).1.currentGestureState = st.currentGestureState := by
  simp only [handleSensorData, hv]
  rw [processSensorData_error_cases st.previousFrameData frame now hfail]
  simp [setHistory]

/-- C5 (witness): with `baseFrame` stored for `devR`, the thumbless frame
draws the internal error, no broadcast, and the history now holds the
incoming frame. -/
theorem c5_internal_error_partial_write_witness :
    (handleSensorData st1 rawNoThumb 1500).2.1 = SensorResponse.internalError ∧
    (handleSensorData st1 rawNoThumb 1500).2.2 = [] ∧
    (handleSensorData st1 rawNoThumb 1500).1.previousFrameData frameNoThumb.deviceId =
      some frameNoThumb ∧
    (handleSensorData st1 rawNoThumb 1500).1.currentGestureState = st1.currentGestureState :=
  c5_internal_error_partial_write st1 rawNoThumb frameNoThumb 1500
    (by simp [toSensorFrame, rawNoThumb, frameNoThumb, devR]) (Or.inl rfl)

/-- C5 (counterexample): in the failure path the per-device history entry is
**not** left at its prior value — with `baseFrame` (timestamp 0) stored for
the device, processing the thumbless frame (timestamp 1000) yields the
internal error and an empty broadcast list, yet the stored entry changed. -/
theorem c5_counterexample :
    (handleSensorData st1 rawNoThumb 1500).2.1 = SensorResponse.internalError ∧
    (handleSensorData st1 rawNoThumb 1500).2.2 = [] ∧
    (handleSensorData st1 rawNoThumb 1500).1.previousFrameData devR ≠
      st1.previousFrameData devR := by
  have hv : toSensorFrame rawNoThumb = some frameNoThumb := by
    simp [toSensorFrame, rawNoThumb, frameNoThumb, devR]
  simp only [handleSensorData, hv]
  rw [processSensorData_error_cases st1.previousFrameData frameNoThumb 1500 (Or.inl rfl)]
  refine ⟨rfl, rfl, ?_⟩
  simp only [setHistory, st1, frameNoThumb]
  intro h
  simp at h
  exact absurd (congrArg SensorFrame.timestamp h) (by norm_num [frameNoThumb, baseFrame])

/-- C6 (amended): a frame carrying the required fields together with `thumb`,
`palm` and `switches` but omitting `position` is accepted and processed with
the neutral default — the movement pose position is `{0,0,0}`; but a frame
omitting `thumb` is **not** accepted with a neutral default: it draws the
generic internal error (and likewise for `palm` / `switches`, whose access
throws). -/
theorem c6_position_defaults_thumb_does_not (st : ServerState) (d : String)
    (hd : d ≠ "") (ts now : ℚ) (i : Imu) (f : Fingers) (th : Thumb) (p : Palm)
    (sw : Switches) :
    (∃ pd,
      (handleSensorData st ⟨some d, ts, some i, some f, some th, some p, some sw, none⟩
          now).2.2 = [pd] ∧
      pd.movementData.position = ⟨0, 0, 0⟩) ∧
    (handleSensorData st ⟨some d, ts, some i, some f, none, some p, some sw, none⟩
        now).2.1 = SensorResponse.internalError := by
  constructor
  · have hv : toSensorFrame ⟨some d, ts, some i, some f, some th, some p, some sw, none⟩ =
        some ⟨d, ts, i, f, some th, some p, some sw, none⟩ := by
      simp [toSensorFrame, hd]
    simp only [handleSensorData, hv]
    rw [processSensorData_ok_parts st.previousFrameData
      ⟨d, ts, i, f, some th, some p, some sw, none⟩ now th sw p rfl rfl rfl]
    exact ⟨_, rfl, calc_position_default _ _ rfl⟩
  · have hv : toSensorFrame ⟨some d, ts, some i, some f, none, some p, some sw, none⟩ =
        some ⟨d, ts, i, f, none, some p, some sw, none⟩ := by
      simp [toSensorFrame, hd]
    simp only [handleSensorData, hv]
    rw [processSensorData_error_cases st.previousFrameData
      ⟨d, ts, i, f, none, some p, some sw, none⟩ now (Or.inl rfl)]

/-- C6 (witness): for device `devR` with concrete sensors, the
position-less frame is broadcast with the `{0,0,0}` pose and the thumbless
frame draws the internal error. -/
theorem c6_position_defaults_thumb_does_not_witness :
    (∃ pd,
      (handleSensorData st0
          ⟨some devR, 0, some ⟨⟨0, 0, 0⟩⟩, some ⟨0.2, 0.2, 0.2, 0.2⟩, some ⟨0.4⟩,
            some ⟨0.1⟩, some ⟨false, false, false⟩, none⟩ 0).2.2 = [pd] ∧
      pd.movementData.position = ⟨0, 0, 0⟩) ∧
    (handleSensorData st0
        ⟨some devR, 0, some ⟨⟨0, 0, 0⟩⟩, some ⟨0.2, 0.2, 0.2, 0.2⟩, none,
          some ⟨0.1⟩, some ⟨false, false, false⟩, none⟩ 0).2.1 =
      SensorResponse.internalError :=
  c6_position_defaults_thumb_does_not st0 devR (by simp [devR]) 0 0
    ⟨⟨0, 0, 0⟩⟩ ⟨0.2, 0.2, 0.2, 0.2⟩ ⟨0.4⟩ ⟨0.1⟩ ⟨false, false, false⟩

/-- C6 (counterexample): a frame carrying `deviceId`, `imu` and `fingers`
(and even `thumb`, `switches` and `position`) but omitting the optional
`palm` is not accepted and processed to an event with a neutral default — it
fails with the generic internal error, because `palm.pressure` is accessed
unconditionally. -/
theorem c6_counterexample :
    (handleSensorData st0 rawNoPalm 0).2.1 = SensorResponse.internalError ∧
    (handleSensorData st0 rawNoPalm 0).2.2 = [] := by
  have hv : toSensorFrame rawNoPalm =
      some ⟨devR, 0, ⟨⟨0, 0, 0⟩⟩, ⟨0.2, 0.2, 0.2, 0.2⟩, some ⟨0.4⟩, none,
        some ⟨false, false, false⟩, some ⟨0, 0, 0⟩⟩ := by
    simp [toSensorFrame, rawNoPalm, devR]
  simp only [handleSensorData, hv]
  rw [processSensorData_error_cases st0.previousFrameData _ 0 (Or.inr (Or.inr rfl))]
  exact ⟨rfl, rfl⟩

/-- C9: processing an accepted frame replaces only the hand slot of the
global gesture state selected by the substring test on `deviceId` — a
`deviceId` containing the left token updates `leftHand`, any other updates
`rightHand` — while `selectedObject` and `transformMode` are untouched and
the other hand slot is preserved. -/
theorem c9_state_isolation (st : ServerState) (raw : RawFrame)
    (frame : SensorFrame) (now : ℚ) (th : Thumb) (sw : Switches) (p : Palm)
    (hv : toSensorFrame raw = some frame) (hth : frame.thumb = some th)
    (hsw : frame.switches = some sw) (hp : frame.palm = some p) :
    ∃ pd,
      (handleSensorData st raw now).2.2 = [pd] ∧
      (handleSensorData st raw now).1.currentGestureState.selectedObject =
        st.currentGestureState.selectedObject ∧
      (handleSensorData st raw now).1.currentGestureState.transformMode =
        st.currentGestureState.transformMode ∧
      (containsLeft frame.deviceId = true →
        (handleSensorData st raw now).1.currentGestureState.leftHand = some pd ∧
        (handleSensorData st raw now).1.currentGestureState.rightHand =
          st.currentGestureState.rightHand) ∧
      (containsLeft frame.deviceId = false →
        (handleSensorData st raw now).1.currentGestureState.rightHand = some pd ∧
        (handleSensorData st raw now).1.currentGestureState.leftHand =
          st.currentGestureState.leftHand) := by
  simp only [handleSensorData, hv]
  rw [processSensorData_ok_parts st.previousFrameData frame now th sw p hth hsw hp]
  refine ⟨_, rfl, ?_⟩
  cases hcl : containsLeft frame.deviceId <;> simp [hcl]

/-- C9 (witness): the complete frame for `devR` (which does not contain the
left token) lands in the right-hand slot, leaving the left hand, the
selected object and the transform mode of the prior state unchanged. -/
theorem c9_state_isolation_witness :
    ∃ pd,
      (handleSensorData st1 rawFull 0).2.2 = [pd] ∧
      (handleSensorData st1 rawFull 0).1.currentGestureState.selectedObject =
        st1.currentGestureState.selectedObject ∧
      (handleSensorData st1 rawFull 0).1.currentGestureState.transformMode =
        st1.currentGestureState.transformMode ∧
      (containsLeft devR = true →
        (handleSensorData st1 rawFull 0).1.currentGestureState.leftHand = some pd ∧
        (handleSensorData st1 rawFull 0).1.currentGestureState.rightHand =
          st1.currentGestureState.rightHand) ∧
      (containsLeft devR = false →
        (handleSensorData st1 rawFull 0).1.currentGestureState.rightHand = some pd ∧
        (handleSensorData st1 rawFull 0).1.currentGestureState.leftHand =
          st1.currentGestureState.leftHand) :=
  c9_state_isolation st1 rawFull
    ⟨devR, 0, ⟨⟨0, 0, 0⟩⟩, ⟨0.2, 0.2, 0.2, 0.2⟩, some ⟨0.4⟩, some ⟨0.1⟩,
      some ⟨false, false, false⟩, some ⟨0, 0, 0⟩⟩ 0 ⟨0.4⟩ ⟨false, false, false⟩ ⟨0.1⟩
    (by simp [toSensorFrame, rawFull, devR]) rfl rfl rfl

end GestureBackend
